import Mathlib

/-!
Shallow embedding of `fork-rs` (`src/src/lib.rs`), a double-fork daemonizer.

The OS primitives (`fork`, `setsid`, `waitpid`, `poll`, `pidfd_open`, `chdir`,
`umask`, `open`, `dup2`, `close`) are modelled as oracle inputs gathered in an
`Env` structure: each field holds the raw value the corresponding libc call
would return in the process instance under consideration.  The library's own
wrappers (`cvt`, `fork`, `setsid`, `wait_for_failure`, `wait_for_success`,
`DaemonizeOptions.daemonize`) are translated line by line from the source.
`process::exit` and the `assert_eq!` panic are reified as constructors of an
outcome type, and the grandchild's descriptor manipulation is recorded as a
trace of `FdOp` operations.
-/

instance {ε α : Type} [DecidableEq ε] [DecidableEq α] :
    DecidableEq (Except ε α) := fun a b =>
  match a, b with
  | .ok x, .ok y =>
      if h : x = y then .isTrue (by rw [h]) else .isFalse (by simp [h])
  | .error x, .error y =>
      if h : x = y then .isTrue (by rw [h]) else .isFalse (by simp [h])
  | .ok _, .error _ => .isFalse (by simp)
  | .error _, .ok _ => .isFalse (by simp)

/-- `ExitCodes` from lib.rs lines 6-15: `#[repr(i32)]`, discriminants 0..5. -/
inductive ExitCodes where
  | Ok
  | ChildFailedToFork
  | ChildSetsidFailed
  | GrandchildChdirFailed
  | GrandchildOpenDevNullFailed
  | GrandchildFailedTooSoon
deriving DecidableEq, Repr

/-- `impl From<ExitCodes> for i32` (lib.rs lines 17-21): `val as i32`,
using the `repr(i32)` discriminants starting at `Ok = 0`. -/
def ExitCodes.toInt : ExitCodes → Int
  | .Ok => 0
  | .ChildFailedToFork => 1
  | .ChildSetsidFailed => 2
  | .GrandchildChdirFailed => 3
  | .GrandchildOpenDevNullFailed => 4
  | .GrandchildFailedTooSoon => 5

/-- `impl TryFrom<i32> for ExitCodes` (lib.rs lines 23-37).  The error type
is `&'static str` and the only error value is the literal `"Unknown exitcode"`. -/
def ExitCodes.tryFrom (value : Int) : Except String ExitCodes :=
  if value = 0 then .ok .Ok
  else if value = 1 then .ok .ChildFailedToFork
  else if value = 2 then .ok .ChildSetsidFailed
  else if value = 3 then .ok .GrandchildChdirFailed
  else if value = 4 then .ok .GrandchildOpenDevNullFailed
  else if value = 5 then .ok .GrandchildFailedTooSoon
  else .error "Unknown exitcode"

/-- `Identity` (lib.rs lines 39-43). -/
inductive Identity where
  | Original
  | Daemon
deriving DecidableEq, Repr

/-- `Fork` (lib.rs lines 45-48). -/
inductive Fork where
  | Parent (child : Int)
  | Child
deriving DecidableEq, Repr

/-- The `cvt` crate's `cvt` on a `c_int`-style return value: `-1` is turned
into an OS error, anything else is passed through.  `cvt_r` retries the call
while the error is `EINTR`; the oracles below supply the final, post-retry raw
value, so `cvt_r` is modelled by `cvt` itself. -/
def cvt (t : Int) : Except String Int :=
  if t = -1 then .error "os error" else .ok t

/-- The `u16 → c_int` widening conversion `timeout_ms.into()` used at
lib.rs line 61 when passing the timeout to `libc::poll`. -/
def u16_into_c_int (timeout_ms : Nat) : Int := (timeout_ms : Int)

/-- `libc::WEXITSTATUS`: bits 8..15 of the raw wait status. -/
def WEXITSTATUS (status : Nat) : Nat := (status >>> 8) &&& 0xff

/-- `wait_for_failure` (lib.rs lines 50-69).  `pidfdOpen` is the
`syscall(SYS_pidfd_open, pid, 0)` oracle (its result is assumed to fit in a
`c_int`, which is what the source's `expect` asserts); `poll` maps the file
descriptor and the timeout argument to the raw `libc::poll` return value. -/
def wait_for_failure (pidfdOpen : Int → Int) (poll : Int → Int → Int)
    (pid : Int) (timeout_ms : Nat) : Except String Unit :=
  let pid_fd := pidfdOpen pid
  match cvt (poll pid_fd (u16_into_c_int timeout_ms)) with
  | .error e => .error e
  | .ok n =>
    if n = 0 then
      .ok ()
    else
      .error "Grandchild died before `timeout_ms` expiration"

/-- Outcome of `wait_for_success`: either the `assert_eq!(pid, changed_pid)`
panic at lib.rs line 76, or the function's `Result` value. -/
inductive WfsOutcome where
  | assertionFailed
  | result (r : Except String Unit)
deriving DecidableEq, Repr

/-- `wait_for_success` (lib.rs lines 71-101).  `waitpidRes` is the oracle for
`cvt_r(|| waitpid(pid, &mut status, 0))`: either the OS error or the pair
(returned pid, raw status). -/
def wait_for_success (waitpidRes : Except String (Int × Nat)) (pid : Int) :
    WfsOutcome :=
  match waitpidRes with
  | .error e => .result (.error e)
  | .ok (changed_pid, status) =>
    if pid = changed_pid then
      match ExitCodes.tryFrom ((WEXITSTATUS status : Nat) : Int) with
      | .ok .Ok => .result (.ok ())
      | .ok .ChildFailedToFork =>
          .result (.error "Child did not launch correctly")
      | .ok .ChildSetsidFailed => .result (.error "Child setsid failed")
      | .ok .GrandchildChdirFailed =>
          .result (.error "GrandChild chdir failed")
      | .ok .GrandchildOpenDevNullFailed =>
          .result (.error "GrandChild open /dev/null failed")
      | .ok .GrandchildFailedTooSoon =>
          .result (.error "GrandChild failed too soon")
      | .error err => .result (.error ("Unspecified error code: " ++ err))
    else .assertionFailed

/-- `fork` wrapper (lib.rs lines 115-127), applied to the raw `libc::fork`
return value. -/
def fork (rawPid : Int) : Except String Fork :=
  match cvt rawPid with
  | .error e => .error e
  | .ok pid => if pid = 0 then .ok .Child else .ok (.Parent pid)

/-- `setsid` wrapper (lib.rs lines 129-133), applied to the raw
`libc::setsid` return value. -/
def setsid (rawSid : Int) : Except String Unit :=
  match cvt rawSid with
  | .error e => .error e
  | .ok _ => .ok ()

/-- A descriptor operation performed by the grandchild during the
redirection phase (lib.rs lines 253-260). -/
inductive FdOp where
  | dup2 (src dst : Int)
  | close (fd : Int)
deriving DecidableEq, Repr

/-- Oracle environment: the raw result each OS primitive produces in the
process instance whose execution of `daemonize` is being considered. -/
structure Env where
  /-- raw `libc::fork` return of the first fork (line 174). -/
  rawFork1 : Int
  /-- `cvt_r(waitpid(pid, ..))` oracle used by `wait_for_success`. -/
  waitpid : Int → Except String (Int × Nat)
  /-- raw `libc::setsid` return (line 189). -/
  rawSetsid : Int
  /-- raw `libc::fork` return of the second fork (line 197). -/
  rawFork2 : Int
  /-- `syscall(SYS_pidfd_open, pid, 0)` oracle. -/
  pidfdOpen : Int → Int
  /-- raw `libc::poll` oracle: fd and timeout argument to return value. -/
  poll : Int → Int → Int
  /-- `set_current_dir("/")` result (line 226). -/
  chdir : Except String Unit
  /-- previous mask returned by `libc::umask(0)` (line 233), always succeeds. -/
  umaskPrev : Nat
  /-- `OpenOptions::new().read(true).write(true).open("/dev/null")` followed
  by `into_raw_fd` (line 245): the raw descriptor on success. -/
  openDevNull : Except String Int
  /-- `dup2(from, to)` result oracle (lines 253-255); ignored by the code. -/
  dup2Res : Int → Int → Except String Unit
  /-- `close(fd)` result oracle (line 259); ignored by the code. -/
  closeRes : Int → Except String Unit

/-- How one invocation of `daemonize` concludes in the executing process
instance: a normal return, a `process::exit(code)`, or a panic. -/
inductive DaemonizeOutcome where
  | ret (r : Except String Identity)
  | exited (code : Int)
  | panicked
deriving DecidableEq, Repr

/-- `DaemonizeOptions` (lib.rs lines 144-146). -/
structure DaemonizeOptions where
  timeout_ms : Option Nat
deriving DecidableEq, Repr

/-- `DaemonizeOptions::new` (lib.rs lines 156-158). -/
def DaemonizeOptions.new : DaemonizeOptions := { timeout_ms := none }

/-- `DaemonizeOptions::set_timeout_ms` (lib.rs lines 161-165). -/
def DaemonizeOptions.set_timeout_ms (self : DaemonizeOptions)
    (timeout_ms : Nat) : DaemonizeOptions :=
  { self with timeout_ms := some timeout_ms }

/-- `DaemonizeOptions::daemonize` (lib.rs lines 172-263), executed in the
process instance whose primitive results `env` records.  Returns the
outcome together with the trace of descriptor operations attempted during
the grandchild's redirection phase. -/
def DaemonizeOptions.daemonize (self : DaemonizeOptions) (env : Env) :
    DaemonizeOutcome × List FdOp :=
  match fork env.rawFork1 with
  | .error e =>
      -- We're still in the parent
      (.ret (.error e), [])
  | .ok (.Parent child_pid) =>
      -- We're in the parent
      (match wait_for_success (env.waitpid child_pid) child_pid with
       | .assertionFailed => .panicked
       | .result r => .ret (Except.map (fun _ => Identity.Original) r), [])
  | .ok .Child =>
    -- we're the child
    match setsid env.rawSetsid with
    | .error _ => (.exited ExitCodes.ChildSetsidFailed.toInt, [])
    | .ok () =>
      -- we're now the session group leader
      match fork env.rawFork2 with
      | .error _ =>
          -- We're still in the child, but fork failed
          (.exited ExitCodes.ChildFailedToFork.toInt, [])
      | .ok (.Parent child_pid) =>
          -- We're in the child (i.e. the session group leader)
          (match wait_for_failure env.pidfdOpen env.poll child_pid
              (self.timeout_ms.getD 1000) with
           | .ok () => .exited ExitCodes.Ok.toInt
           | .error _ => .exited ExitCodes.GrandchildFailedTooSoon.toInt, [])
      | .ok .Child =>
        -- we're now in the grand-child
        match env.chdir with
        | .error _ => (.exited ExitCodes.GrandchildChdirFailed.toInt, [])
        | .ok () =>
          let _previous_mask := env.umaskPrev
          match env.openDevNull with
          | .error _ =>
              -- couldn't open /dev/null?
              (.exited ExitCodes.GrandchildOpenDevNullFailed.toInt, [])
          | .ok fd =>
            let _r1 := env.dup2Res fd 0
            let _r2 := env.dup2Res fd 1
            let _r3 := env.dup2Res fd 2
            let ops := [FdOp.dup2 fd 0, FdOp.dup2 fd 1, FdOp.dup2 fd 2]
            if fd > 2 then
              -- fd is not one of the pre-defined ones, let's close it
              let _rc := env.closeRes fd
              (.ret (.ok Identity.Daemon), ops ++ [FdOp.close fd])
            else
              (.ret (.ok Identity.Daemon), ops)

/-- The free function `daemonize` (lib.rs lines 140-142). -/
def daemonize (env : Env) : DaemonizeOutcome × List FdOp :=
  DaemonizeOptions.new.daemonize env

/-- A concrete environment used by the witness theorems. -/
def baseEnv : Env where
  rawFork1 := 0
  waitpid := fun p => .ok (p, 0)
  rawSetsid := 7
  rawFork2 := 0
  pidfdOpen := fun _ => 3
  poll := fun _ _ => 0
  chdir := .ok ()
  umaskPrev := 0
  openDevNull := .ok 3
  dup2Res := fun _ _ => .ok ()
  closeRes := fun _ => .ok ()

/-- C4: the exit-code taxonomy is a bidirectional mapping between the six
named outcomes and the integers 0..5 in the order Ok=0, ChildFailedToFork=1,
ChildSetsidFailed=2, GrandchildChdirFailed=3, GrandchildOpenDevNullFailed=4,
GrandchildFailedTooSoon=5: decoding then re-encoding any integer in 0..=5
yields that integer, and encoding then decoding any taxonomy value yields
that value. -/
theorem exit_codes_roundtrip :
    (∀ n : Int, 0 ≤ n → n ≤ 5 →
      Except.map ExitCodes.toInt (ExitCodes.tryFrom n) = .ok n) ∧
    (∀ e : ExitCodes, ExitCodes.tryFrom e.toInt = .ok e) ∧
    ExitCodes.Ok.toInt = 0 ∧ ExitCodes.ChildFailedToFork.toInt = 1 ∧
    ExitCodes.ChildSetsidFailed.toInt = 2 ∧
    ExitCodes.GrandchildChdirFailed.toInt = 3 ∧
    ExitCodes.GrandchildOpenDevNullFailed.toInt = 4 ∧
    ExitCodes.GrandchildFailedTooSoon.toInt = 5 := by
  refine ⟨?_, ?_, rfl, rfl, rfl, rfl, rfl, rfl⟩
  · intro n h0 h5
    have hn : n = 0 ∨ n = 1 ∨ n = 2 ∨ n = 3 ∨ n = 4 ∨ n = 5 := by omega
    rcases hn with h | h | h | h | h | h <;> subst h <;> rfl
  · intro e
    cases e <;> rfl

/-- Witness for C4, at the integer 3 and the value ChildSetsidFailed. -/
theorem exit_codes_roundtrip_witness :
    Except.map ExitCodes.toInt (ExitCodes.tryFrom 3) = .ok 3 ∧
    ExitCodes.tryFrom ExitCodes.ChildSetsidFailed.toInt =
      .ok ExitCodes.ChildSetsidFailed :=
  ⟨exit_codes_roundtrip.1 3 (by decide) (by decide),
   exit_codes_roundtrip.2.1 ExitCodes.ChildSetsidFailed⟩

/-- C5 counterexample: decoding an out-of-range integer does NOT carry the
raw undecodable integer — `try_from` returns the constant static string
`"Unknown exitcode"`, identical for 6 and 7, and `wait_for_success` embeds
that constant string, not the raw value, in its failure message. -/
theorem exit_codes_error_payload_counterexample :
    ExitCodes.tryFrom 6 = .error "Unknown exitcode" ∧
    ExitCodes.tryFrom 6 = ExitCodes.tryFrom 7 ∧
    wait_for_success (.ok (5, 6 * 256)) 5 =
      .result (.error "Unspecified error code: Unknown exitcode") ∧
    wait_for_success (.ok (5, 6 * 256)) 5 =
      wait_for_success (.ok (5, 7 * 256)) 5 := by
  refine ⟨rfl, rfl, by decide, by decide⟩

/-- C5 (amended): for every integer outside 0..=5, decoding fails with the
constant error string "Unknown exitcode" (which does not vary with, hence
does not carry, the raw integer), and `wait_for_success` maps such an
undecodable exit status to the failure "Unspecified error code: Unknown
exitcode", whose payload carries that constant decoder message rather than
the raw value. -/
theorem exit_codes_unknown_static_error :
    (∀ n : Int, n < 0 ∨ 5 < n →
      ExitCodes.tryFrom n = .error "Unknown exitcode") ∧
    ∀ (pid : Int) (status : Nat), 5 < WEXITSTATUS status →
      wait_for_success (.ok (pid, status)) pid =
        .result (.error "Unspecified error code: Unknown exitcode") := by
  have hdec : ∀ n : Int, n < 0 ∨ 5 < n →
      ExitCodes.tryFrom n = .error "Unknown exitcode" := by
    intro n h
    unfold ExitCodes.tryFrom
    rw [if_neg (by omega), if_neg (by omega), if_neg (by omega),
      if_neg (by omega), if_neg (by omega), if_neg (by omega)]
  refine ⟨hdec, ?_⟩
  intro pid status h
  have h6 : ExitCodes.tryFrom ((WEXITSTATUS status : Nat) : Int) =
      .error "Unknown exitcode" := hdec _ (Or.inr (by exact_mod_cast h))
  simp [wait_for_success, h6]

/-- Witness for C5's amended statement, at the integer -3 and at a raw wait
status whose exit byte is 9. -/
theorem exit_codes_unknown_static_error_witness :
    ExitCodes.tryFrom (-3) = .error "Unknown exitcode" ∧
    wait_for_success (.ok (2, 9 * 256)) 2 =
      .result (.error "Unspecified error code: Unknown exitcode") :=
  ⟨exit_codes_unknown_static_error.1 (-3) (Or.inl (by decide)),
   exit_codes_unknown_static_error.2 2 (9 * 256) (by decide)⟩

/-- C3: `wait_for_failure` succeeds exactly when the underlying poll returns
0 (timeout elapsed, process still alive); any non-zero poll result — the
watched process becoming waitable for any reason, or a poll error — yields
failure.  The poll result is the only input consulted: no exit status of the
watched process is read at all. -/
theorem wait_for_failure_success_iff_poll_zero
    (pidfdOpen : Int → Int) (poll : Int → Int → Int)
    (pid : Int) (timeout_ms : Nat) :
    wait_for_failure pidfdOpen poll pid timeout_ms = .ok () ↔
      poll (pidfdOpen pid) (u16_into_c_int timeout_ms) = 0 := by
  simp only [wait_for_failure, cvt]
  by_cases hz : poll (pidfdOpen pid) (u16_into_c_int timeout_ms) = -1
  · simp [hz]
  · simp only [if_neg hz]
    by_cases hn : poll (pidfdOpen pid) (u16_into_c_int timeout_ms) = 0 <;>
      simp [hn]

/-- C10: the timeout argument `wait_for_failure` passes to the underlying
poll is `timeout_ms` widened from u16, hence always in 0..=65535 and never
the negative sentinel (-1, unbounded poll); consequently the behaviour of
`wait_for_failure` depends on the poll oracle only at non-negative bounded
timeout arguments, and timeout 0 passes the argument 0 (poll's immediate,
non-blocking check). -/
theorem wait_for_failure_timeout_bounded (timeout_ms : Nat)
    (h : timeout_ms < 65536) :
    (0 ≤ u16_into_c_int timeout_ms ∧ u16_into_c_int timeout_ms ≤ 65535 ∧
      u16_into_c_int timeout_ms ≠ -1) ∧
    (timeout_ms = 0 → u16_into_c_int timeout_ms = 0) ∧
    ∀ (pidfdOpen : Int → Int) (poll poll' : Int → Int → Int) (pid : Int),
      (∀ fd a, 0 ≤ a → a ≤ 65535 → poll fd a = poll' fd a) →
      wait_for_failure pidfdOpen poll pid timeout_ms =
        wait_for_failure pidfdOpen poll' pid timeout_ms := by
  refine ⟨⟨?_, ?_, ?_⟩, ?_, ?_⟩
  · unfold u16_into_c_int; omega
  · unfold u16_into_c_int; omega
  · unfold u16_into_c_int; omega
  · intro h0; subst h0; rfl
  · intro pidfdOpen poll poll' pid hagree
    simp only [wait_for_failure]
    rw [hagree (pidfdOpen pid) (u16_into_c_int timeout_ms)
      (by unfold u16_into_c_int; omega) (by unfold u16_into_c_int; omega)]

/-- Witness for C10 at timeout 1000 and a pair of poll oracles that agree on
bounded timeouts but differ at the unbounded sentinel. -/
theorem wait_for_failure_timeout_bounded_witness :
    (0 ≤ u16_into_c_int 1000 ∧ u16_into_c_int 1000 ≤ 65535 ∧
      u16_into_c_int 1000 ≠ -1) ∧
    wait_for_failure (fun _ => 3) (fun _ _ => 0) 42 1000 =
      wait_for_failure (fun _ => 3)
        (fun _ a => if a = -1 then 7 else 0) 42 1000 :=
  ⟨(wait_for_failure_timeout_bounded 1000 (by decide)).1,
   (wait_for_failure_timeout_bounded 1000 (by decide)).2.2
     (fun _ => 3) (fun _ _ => 0) (fun _ a => if a = -1 then 7 else 0) 42
     (fun _ a h0 _ => by
       show (0 : Int) = if a = -1 then 7 else 0
       rw [if_neg (by omega)])⟩

/-- On a successful waitpid reporting the same pid, `wait_for_success`
reduces to the decode of the exit-status byte. -/
theorem wait_for_success_ok_self (pid : Int) (status : Nat) :
    wait_for_success (.ok (pid, status)) pid =
      match ExitCodes.tryFrom ((WEXITSTATUS status : Nat) : Int) with
      | .ok .Ok => .result (.ok ())
      | .ok .ChildFailedToFork =>
          .result (.error "Child did not launch correctly")
      | .ok .ChildSetsidFailed => .result (.error "Child setsid failed")
      | .ok .GrandchildChdirFailed =>
          .result (.error "GrandChild chdir failed")
      | .ok .GrandchildOpenDevNullFailed =>
          .result (.error "GrandChild open /dev/null failed")
      | .ok .GrandchildFailedTooSoon =>
          .result (.error "GrandChild failed too soon")
      | .error err =>
          .result (.error ("Unspecified error code: " ++ err)) := by
  simp only [wait_for_success, eq_self_iff_true, if_true]

/-- C6: `wait_for_success`, for every child pid: on a successful waitpid it
checks the reported pid against the one it was given (mismatch panics the
assertion), decodes the exit-status byte through the taxonomy, returns
success exactly when the decoded value is Ok, and yields a distinct
descriptive failure for each of the other taxonomy values (the outcome map
over taxonomy values is injective).  A waitpid error propagates as an
error. -/
theorem wait_for_success_decodes (pid changed_pid : Int) (status : Nat) :
    (changed_pid ≠ pid →
      wait_for_success (.ok (changed_pid, status)) pid = .assertionFailed) ∧
    (wait_for_success (.ok (pid, status)) pid = .result (.ok ()) ↔
      ExitCodes.tryFrom ((WEXITSTATUS status : Nat) : Int) =
        .ok ExitCodes.Ok) ∧
    ∀ e e' : ExitCodes, e ≠ e' →
      wait_for_success (.ok (pid, e.toInt.toNat <<< 8)) pid ≠
        wait_for_success (.ok (pid, e'.toInt.toNat <<< 8)) pid := by
  refine ⟨?_, ?_, ?_⟩
  · intro hne
    have h : ¬(pid = changed_pid) := fun h => hne h.symm
    simp [wait_for_success, h]
  · rw [wait_for_success_ok_self]
    rcases h : ExitCodes.tryFrom ((WEXITSTATUS status : Nat) : Int)
      with e | c
    · simp [h]
    · cases c <;> simp [h]
  · intro e e' hne
    rw [wait_for_success_ok_self, wait_for_success_ok_self]
    revert hne
    cases e <;> cases e' <;> decide

/-- Witness for C6: a mismatching pid trips the assertion, the Ok iff holds
at status 0, and the Ok and GrandchildFailedTooSoon statuses yield distinct
outcomes. -/
theorem wait_for_success_decodes_witness :
    (wait_for_success (.ok (3, 0)) 2 = .assertionFailed) ∧
    (wait_for_success (.ok (2, 0)) 2 = .result (.ok ()) ↔
      ExitCodes.tryFrom ((WEXITSTATUS 0 : Nat) : Int) =
        .ok ExitCodes.Ok) ∧
    wait_for_success
        (.ok (2, ExitCodes.Ok.toInt.toNat <<< 8)) 2 ≠
      wait_for_success
        (.ok (2, ExitCodes.GrandchildFailedTooSoon.toInt.toNat <<< 8)) 2 :=
  ⟨(wait_for_success_decodes 2 3 0).1 (by decide),
   (wait_for_success_decodes 2 3 0).2.1,
   (wait_for_success_decodes 2 3 0).2.2 ExitCodes.Ok
     ExitCodes.GrandchildFailedTooSoon (by decide)⟩

/-- C1: when the first fork returns the parent branch, `daemonize` in the
original process instance returns exactly the outcome of the success-wait on
the forked child's pid mapped to `Identity.Original` (panicking iff the
success-wait's assertion fails), performing no descriptor operation and no
process exit — it depends on nothing past the success-wait — and when the
first fork fails, that error is returned as a `Result` to the caller with no
process exit. -/
theorem daemonize_first_fork_parent (env : Env)
    (opts : DaemonizeOptions) (pid : Int) :
    (fork env.rawFork1 = .ok (.Parent pid) →
      opts.daemonize env =
        (match wait_for_success (env.waitpid pid) pid with
         | .assertionFailed => DaemonizeOutcome.panicked
         | .result r =>
             .ret (Except.map (fun _ => Identity.Original) r), [])) ∧
    ∀ e, fork env.rawFork1 = .error e →
      opts.daemonize env = (.ret (.error e), []) := by
  constructor
  · intro h
    simp only [DaemonizeOptions.daemonize, h]
  · intro e h
    simp only [DaemonizeOptions.daemonize, h]

/-- Witness for C1: with raw first-fork result 42 and a waitpid oracle
reporting pid 42 with status 0, the original instance returns
`Ok Identity.Original`; with raw first-fork result -1 it returns the fork
error. -/
theorem daemonize_first_fork_parent_witness :
    DaemonizeOptions.new.daemonize { baseEnv with rawFork1 := 42 } =
      (.ret (.ok Identity.Original), []) ∧
    DaemonizeOptions.new.daemonize { baseEnv with rawFork1 := -1 } =
      (.ret (.error "os error"), []) := by
  constructor
  · rw [(daemonize_first_fork_parent { baseEnv with rawFork1 := 42 }
      DaemonizeOptions.new 42).1 (by decide)]
    decide
  · exact (daemonize_first_fork_parent { baseEnv with rawFork1 := -1 }
      DaemonizeOptions.new 0).2 "os error" (by decide)

/-- C2: on the parent branch of the second fork, the intermediate
session-leader instance always terminates via `process::exit` and never
returns a value: exit code Ok (0) when the liveness-bounded wait succeeds,
GrandchildFailedTooSoon (5) when it fails, and ChildFailedToFork (1) when
the second fork call itself fails. -/
theorem daemonize_second_fork_parent (env : Env)
    (opts : DaemonizeOptions) (pid : Int)
    (hchild : fork env.rawFork1 = .ok .Child)
    (hsid : setsid env.rawSetsid = .ok ()) :
    (fork env.rawFork2 = .ok (.Parent pid) →
      opts.daemonize env =
        (match wait_for_failure env.pidfdOpen env.poll pid
            (opts.timeout_ms.getD 1000) with
         | .ok () => DaemonizeOutcome.exited ExitCodes.Ok.toInt
         | .error _ =>
             DaemonizeOutcome.exited
               ExitCodes.GrandchildFailedTooSoon.toInt, [])) ∧
    (∀ e, fork env.rawFork2 = .error e →
      opts.daemonize env =
        (.exited ExitCodes.ChildFailedToFork.toInt, [])) ∧
    ExitCodes.Ok.toInt = 0 ∧
    ExitCodes.GrandchildFailedTooSoon.toInt = 5 ∧
    ExitCodes.ChildFailedToFork.toInt = 1 := by
  refine ⟨?_, ?_, rfl, rfl, rfl⟩
  · intro h
    simp only [DaemonizeOptions.daemonize, hchild, hsid, h]
  · intro e h
    simp only [DaemonizeOptions.daemonize, hchild, hsid, h]

/-- Witness for C2: with both forks in the child/parent configuration of the
intermediate instance, poll result 0 exits with 0, poll result 1 exits with
5, and a failed second fork exits with 1. -/
theorem daemonize_second_fork_parent_witness :
    DaemonizeOptions.new.daemonize { baseEnv with rawFork2 := 9 } =
      (.exited 0, []) ∧
    DaemonizeOptions.new.daemonize
        { baseEnv with rawFork2 := 9, poll := fun _ _ => 1 } =
      (.exited 5, []) ∧
    DaemonizeOptions.new.daemonize { baseEnv with rawFork2 := -1 } =
      (.exited 1, []) := by
  refine ⟨?_, ?_, ?_⟩
  · rw [(daemonize_second_fork_parent { baseEnv with rawFork2 := 9 }
      DaemonizeOptions.new 9 (by decide) (by decide)).1 (by decide)]
    decide
  · rw [(daemonize_second_fork_parent
      { baseEnv with rawFork2 := 9, poll := fun _ _ => 1 }
      DaemonizeOptions.new 9 (by decide) (by decide)).1 (by decide)]
    decide
  · exact (daemonize_second_fork_parent { baseEnv with rawFork2 := -1 }
      DaemonizeOptions.new 0 (by decide) (by decide)).2.1 "os error"
      (by decide)

/-- C7: in the grandchild instance, a failure to open the null device exits
with GrandchildOpenDevNullFailed (4); on success with descriptor fd ≥ 0 the
daemonize call duplicates fd onto slots 0, 1 and 2 (ignoring individual
duplication failures — the result holds for every dup2/close oracle), closes
fd afterwards exactly when fd is not 0, 1 or 2, and returns
`Identity.Daemon`. -/
theorem daemonize_grandchild_descriptors (env : Env)
    (opts : DaemonizeOptions) (fd : Int)
    (h1 : fork env.rawFork1 = .ok .Child)
    (h2 : setsid env.rawSetsid = .ok ())
    (h3 : fork env.rawFork2 = .ok .Child)
    (h4 : env.chdir = .ok ()) :
    ((∀ e, env.openDevNull = .error e →
      opts.daemonize env =
        (.exited ExitCodes.GrandchildOpenDevNullFailed.toInt, [])) ∧
      ExitCodes.GrandchildOpenDevNullFailed.toInt = 4) ∧
    (env.openDevNull = .ok fd → 0 ≤ fd →
      opts.daemonize env =
        (.ret (.ok Identity.Daemon),
         [FdOp.dup2 fd 0, FdOp.dup2 fd 1, FdOp.dup2 fd 2] ++
           (if fd = 0 ∨ fd = 1 ∨ fd = 2 then [] else [FdOp.close fd]))) := by
  refine ⟨⟨?_, rfl⟩, ?_⟩
  · intro e h5
    simp only [DaemonizeOptions.daemonize, h1, h2, h3, h4, h5]
  · intro h5 hfd
    by_cases hgt : fd > 2
    · have hne : ¬(fd = 0 ∨ fd = 1 ∨ fd = 2) := by omega
      simp only [DaemonizeOptions.daemonize, h1, h2, h3, h4, h5,
        if_pos hgt, if_neg hne, List.append_nil]
    · have heq : fd = 0 ∨ fd = 1 ∨ fd = 2 := by omega
      simp only [DaemonizeOptions.daemonize, h1, h2, h3, h4, h5,
        if_neg hgt, if_pos heq, List.append_nil]

/-- Witness for C7: an unopenable null device exits with 4; descriptor 3 is
duplicated onto 0, 1, 2 and then closed; descriptor 1 is duplicated onto
0, 1, 2 and not closed. -/
theorem daemonize_grandchild_descriptors_witness :
    DaemonizeOptions.new.daemonize
        { baseEnv with openDevNull := .error "no null device" } =
      (.exited 4, []) ∧
    DaemonizeOptions.new.daemonize baseEnv =
      (.ret (.ok Identity.Daemon),
       [FdOp.dup2 3 0, FdOp.dup2 3 1, FdOp.dup2 3 2, FdOp.close 3]) ∧
    DaemonizeOptions.new.daemonize { baseEnv with openDevNull := .ok 1 } =
      (.ret (.ok Identity.Daemon),
       [FdOp.dup2 1 0, FdOp.dup2 1 1, FdOp.dup2 1 2]) := by
  refine ⟨?_, ?_, ?_⟩
  · exact ((daemonize_grandchild_descriptors
      { baseEnv with openDevNull := .error "no null device" }
      DaemonizeOptions.new 0 (by decide) (by decide) (by decide)
      (by decide)).1).1 "no null device" (by decide)
  · rw [(daemonize_grandchild_descriptors baseEnv
      DaemonizeOptions.new 3 (by decide) (by decide) (by decide)
      (by decide)).2 (by decide) (by decide)]
    decide
  · rw [(daemonize_grandchild_descriptors
      { baseEnv with openDevNull := .ok 1 }
      DaemonizeOptions.new 1 (by decide) (by decide) (by decide)
      (by decide)).2 (by decide) (by decide)]
    decide

/-- C8: in the child instance, a failed session-leader transition exits with
ChildSetsidFailed (2); in the grandchild instance, a failed change of the
working directory to the filesystem root exits with GrandchildChdirFailed
(3); the file-creation-mask reset has no failure branch — the outcome of
`daemonize` is unchanged under every value the umask primitive can report. -/
theorem daemonize_setsid_chdir_umask (env : Env)
    (opts : DaemonizeOptions)
    (h1 : fork env.rawFork1 = .ok .Child) :
    ((∀ e, setsid env.rawSetsid = .error e →
      opts.daemonize env =
        (.exited ExitCodes.ChildSetsidFailed.toInt, [])) ∧
      ExitCodes.ChildSetsidFailed.toInt = 2) ∧
    (setsid env.rawSetsid = .ok () → fork env.rawFork2 = .ok .Child →
      (∀ e, env.chdir = .error e →
        opts.daemonize env =
          (.exited ExitCodes.GrandchildChdirFailed.toInt, [])) ∧
      ExitCodes.GrandchildChdirFailed.toInt = 3) ∧
    ∀ m : Nat,
      opts.daemonize { env with umaskPrev := m } = opts.daemonize env := by
  refine ⟨⟨?_, rfl⟩, fun h2 h3 => ⟨?_, rfl⟩, ?_⟩
  · intro e h2
    simp only [DaemonizeOptions.daemonize, h1, h2]
  · intro e h4
    simp only [DaemonizeOptions.daemonize, h1, h2, h3, h4]
  · intro m
    cases env
    rfl

/-- Witness for C8: a failed setsid exits with 2, a failed chdir exits with
3, and changing the reported previous umask leaves the outcome unchanged. -/
theorem daemonize_setsid_chdir_umask_witness :
    DaemonizeOptions.new.daemonize { baseEnv with rawSetsid := -1 } =
      (.exited 2, []) ∧
    DaemonizeOptions.new.daemonize
        { baseEnv with chdir := .error "chdir failed" } =
      (.exited 3, []) ∧
    DaemonizeOptions.new.daemonize { baseEnv with umaskPrev := 63 } =
      DaemonizeOptions.new.daemonize baseEnv := by
  refine ⟨?_, ?_, ?_⟩
  · exact ((daemonize_setsid_chdir_umask { baseEnv with rawSetsid := -1 }
      DaemonizeOptions.new (by decide)).1).1 "os error" (by decide)
  · exact (((daemonize_setsid_chdir_umask
      { baseEnv with chdir := .error "chdir failed" }
      DaemonizeOptions.new (by decide)).2.1 (by decide) (by decide)).1)
      "chdir failed" (by decide)
  · exact (daemonize_setsid_chdir_umask baseEnv
      DaemonizeOptions.new (by decide)).2.2 63

/-- C9: the configuration holds exactly one optional timeout
(`timeout_ms`), settable through `set_timeout_ms`; `new` leaves it unset;
the zero-configuration entry point `daemonize` is exactly
`DaemonizeOptions.new.daemonize`; and when the timeout is unset, the state
machine invokes the liveness-bounded wait with the default value 1000. -/
theorem daemonize_config_default (env : Env) :
    (∀ env' : Env, daemonize env' = DaemonizeOptions.new.daemonize env') ∧
    DaemonizeOptions.new.timeout_ms = none ∧
    (∀ (opts : DaemonizeOptions) (t : Nat),
      (opts.set_timeout_ms t).timeout_ms = some t) ∧
    ∀ (opts : DaemonizeOptions) (pid : Int),
      opts.timeout_ms = none →
      fork env.rawFork1 = .ok .Child →
      setsid env.rawSetsid = .ok () →
      fork env.rawFork2 = .ok (.Parent pid) →
      opts.daemonize env =
        (match wait_for_failure env.pidfdOpen env.poll pid 1000 with
         | .ok () => DaemonizeOutcome.exited ExitCodes.Ok.toInt
         | .error _ =>
             DaemonizeOutcome.exited
               ExitCodes.GrandchildFailedTooSoon.toInt, []) := by
  refine ⟨fun _ => rfl, rfl, fun _ _ => rfl, ?_⟩
  intro opts pid hnone h1 h2 h3
  simp only [DaemonizeOptions.daemonize, h1, h2, h3, hnone, Option.getD]

/-- Witness for C9: at a concrete environment whose second fork yields pid 9
and whose poll reports the timeout elapsed, the default-configured entry
point exits with 0, and the builder facts hold at timeout 250. -/
theorem daemonize_config_default_witness :
    daemonize { baseEnv with rawFork2 := 9 } =
      DaemonizeOptions.new.daemonize { baseEnv with rawFork2 := 9 } ∧
    (DaemonizeOptions.new.set_timeout_ms 250).timeout_ms = some 250 ∧
    DaemonizeOptions.new.daemonize { baseEnv with rawFork2 := 9 } =
      (.exited 0, []) := by
  refine ⟨(daemonize_config_default baseEnv).1 _,
    (daemonize_config_default baseEnv).2.2.1 DaemonizeOptions.new 250, ?_⟩
  rw [(daemonize_config_default { baseEnv with rawFork2 := 9 }).2.2.2
    DaemonizeOptions.new 9 rfl (by decide) (by decide) (by decide)]
  decide
